import Mathlib

/-!
A shallow embedding of the stock analysis server in `src/server-improved.js`
(class `ImprovedStockScraper` together with the `POST /api/analyze` handler),
and theorems checking its specification: priority-based field merging,
valuation and risk classification, deterministic report rendering, the
enrichment fallback, and the error handling of the request pipeline.
-/

namespace Scraper

/-- Model of a JavaScript value flowing through the scraper.  `undefined` stands
for `undefined` (a missing field, and also `null`); `num q` is a plain
(non-NaN) number; `numStr q` is a non-empty string that `parseFloat` reads as
the number `q` (such as the output of `toFixed`, e.g. Yahoo's
`change_percent`); `str s` is any other string, on which `parseFloat`
yields NaN. -/
inductive JsVal where
  | undefined : JsVal
  | num (q : ℚ) : JsVal
  | numStr (q : ℚ) : JsVal
  | str (s : String) : JsVal
deriving DecidableEq

/-- JavaScript truthiness: `undefined`, the number `0` and the empty string
are falsy; every other value modelled here is truthy. -/
def JsVal.truthy : JsVal → Bool
  | .undefined => false
  | .num q => q != 0
  | .numStr _ => true
  | .str s => s != ""

/-- The JavaScript expression `a || b`: `a` when `a` is truthy, else `b`. -/
def jsOr (a b : JsVal) : JsVal := if a.truthy then a else b

/-- The guard `v && typeof v === 'number'` used throughout `generateSummary`
and `generateBasicSummary`: yields the numeric payload exactly when `v` is a
truthy number, so the number `0` fails the guard. -/
def truthyNum : JsVal → Option ℚ
  | .num q => if q = 0 then none else some q
  | _ => none

/-- `parseFloat` on a modelled value: numbers and numeric strings parse to
their payload; `undefined` and non-numeric strings give NaN (`none`). -/
def parseFloatQ : JsVal → Option ℚ
  | .num q => some q
  | .numStr q => some q
  | _ => none

/-- `parseFloat(v) >= 0`, false when `parseFloat` gives NaN. -/
def jsNonNeg (v : JsVal) : Bool :=
  match parseFloatQ v with
  | some q => decide (0 ≤ q)
  | none => false

/-- `parseFloat(v) > 0`, false when NaN; used for the momentum strength in
`generateBasicSummary`. -/
def jsPos (v : JsVal) : Bool :=
  match parseFloatQ v with
  | some q => decide (0 < q)
  | none => false

/-- The object stored in `this.data.sources.yahoo_finance` by
`fetchYahooFinanceData` on success (fields from the Yahoo chart API `meta`;
`change_percent` is the result of `toFixed(2)`, hence a numeric string). -/
structure YahooData where
  current_price : JsVal
  previous_close : JsVal
  change : JsVal
  change_percent : JsVal
  volume : JsVal
  currency : JsVal
  exchange : JsVal
deriving DecidableEq

/-- The object stored in `this.data.sources.nse` by `fetchNSEData` on
success.  The field `pe` models the source field `pe_ratio`
(`data.metadata?.pdSectorPe`), and `open_` models `open`. -/
structure NseData where
  current_price : JsVal
  change : JsVal
  change_percent : JsVal
  open_ : JsVal
  high : JsVal
  low : JsVal
  volume : JsVal
  market_cap : JsVal
  pe : JsVal
  company_name : JsVal
deriving DecidableEq

/-- The `company_info` sub-object built by `scrapeScreener`. -/
structure ScreenerInfo where
  name : JsVal
  price : JsVal
deriving DecidableEq

/-- The `ratios` sub-object built by `scrapeScreener`; `pe` models the
source field `pe_ratio`. -/
structure ScreenerRatios where
  market_cap : JsVal
  pe : JsVal
  book_value : JsVal
  roe : JsVal
  roce : JsVal
deriving DecidableEq

/-- The object stored in `this.data.sources.screener` by `scrapeScreener`. -/
structure ScreenerData where
  company_info : ScreenerInfo
  ratios : ScreenerRatios
deriving DecidableEq

/-- The `this.data.sources` object after `scrapeAllSources` has settled: a
source key is present (`some`) exactly when that extractor succeeded
(returned non-null); a failed extractor never sets its key. -/
structure Sources where
  yahoo_finance : Option YahooData
  nse : Option NseData
  screener : Option ScreenerData
deriving DecidableEq

/-- JavaScript optional chaining `o?.f`: `undefined` when `o` is absent. -/
def optChain {α : Type} (o : Option α) (f : α → JsVal) : JsVal :=
  match o with
  | some x => f x
  | none => .undefined

/-- `sources.yahoo_finance?.current_price`. -/
def yahooPrice (s : Sources) : JsVal :=
  optChain s.yahoo_finance fun d => d.current_price

/-- `sources.yahoo_finance?.change_percent`. -/
def yahooChangePercent (s : Sources) : JsVal :=
  optChain s.yahoo_finance fun d => d.change_percent

/-- `sources.nse?.current_price`. -/
def nsePrice (s : Sources) : JsVal :=
  optChain s.nse fun d => d.current_price

/-- `sources.nse?.change_percent`. -/
def nseChangePercent (s : Sources) : JsVal :=
  optChain s.nse fun d => d.change_percent

/-- `sources.nse?.pe_ratio`. -/
def nsePe (s : Sources) : JsVal :=
  optChain s.nse fun d => d.pe

/-- `sources.nse?.company_name`. -/
def nseCompanyName (s : Sources) : JsVal :=
  optChain s.nse fun d => d.company_name

/-- `sources.screener?.company_info?.price`. -/
def screenerPrice (s : Sources) : JsVal :=
  optChain s.screener fun d => d.company_info.price

/-- `sources.screener?.company_info?.name`. -/
def screenerName (s : Sources) : JsVal :=
  optChain s.screener fun d => d.company_info.name

/-- `sources.screener?.ratios?.market_cap`. -/
def screenerMarketCap (s : Sources) : JsVal :=
  optChain s.screener fun d => d.ratios.market_cap

/-- `sources.screener?.ratios?.pe_ratio`. -/
def screenerPe (s : Sources) : JsVal :=
  optChain s.screener fun d => d.ratios.pe

/-- `sources.screener?.ratios?.roe`. -/
def screenerRoe (s : Sources) : JsVal :=
  optChain s.screener fun d => d.ratios.roe

/-- `sources.screener?.ratios?.book_value`. -/
def screenerBookValue (s : Sources) : JsVal :=
  optChain s.screener fun d => d.ratios.book_value

/-- The merged record built by `getCombinedData`; the field `pe` models the
source field `pe_ratio`. -/
structure Combined where
  current_price : JsVal
  change_percent : JsVal
  company_name : JsVal
  market_cap : JsVal
  pe : JsVal
  roe : JsVal
  book_value : JsVal
deriving DecidableEq

/-- `getCombinedData`: merges the per-source records with the `||` chains of
the source, field by field.  `stockSymbol` is `this.stockSymbol`, the
uppercased request symbol, used as the final fallback for `company_name`. -/
def getCombinedData (stockSymbol : String) (s : Sources) : Combined where
  current_price := jsOr (yahooPrice s) (jsOr (nsePrice s) (screenerPrice s))
  change_percent := jsOr (yahooChangePercent s) (nseChangePercent s)
  company_name :=
    jsOr (nseCompanyName s) (jsOr (screenerName s) (.str stockSymbol))
  market_cap := screenerMarketCap s
  pe := jsOr (screenerPe s) (nsePe s)
  roe := screenerRoe s
  book_value := screenerBookValue s

/-- Identifiers of the three sources fetched by `scrapeAllSources`. -/
inductive SourceId where
  | yahoo : SourceId
  | nse : SourceId
  | screener : SourceId
deriving DecidableEq

/-- Provenance of the merged `current_price`: the source whose disjunct of
the chain `yahoo || nse || screener` supplies the value (the code keeps no
explicit provenance; the winner is determined by which `||` operand is the
first truthy one). -/
def priceWinner (s : Sources) : Option SourceId :=
  if (yahooPrice s).truthy then some .yahoo
  else if (nsePrice s).truthy then some .nse
  else if (screenerPrice s).truthy then some .screener
  else none

/-- Provenance of the merged `pe_ratio` (chain `screener || nse`). -/
def peWinner (s : Sources) : Option SourceId :=
  if (screenerPe s).truthy then some .screener
  else if (nsePe s).truthy then some .nse
  else none

/-- Provenance of the merged `change_percent` (chain `yahoo || nse`). -/
def changeWinner (s : Sources) : Option SourceId :=
  if (yahooChangePercent s).truthy then some .yahoo
  else if (nseChangePercent s).truthy then some .nse
  else none

/-- Provenance of the merged `company_name` (chain `nse || screener`,
before the symbol fallback). -/
def nameWinner (s : Sources) : Option SourceId :=
  if (nseCompanyName s).truthy then some .nse
  else if (screenerName s).truthy then some .screener
  else none

/-- One line of the deterministic summary built by `generateSummary`
(`summary.push(...)` calls); each constructor carries the data interpolated
into the corresponding template string. -/
inductive Line where
  | company (v : JsVal) : Line
  | price (q : ℚ) : Line
  | priceNA : Line
  | change (v : JsVal) (direction : String) : Line
  | marketCap (q : ℚ) : Line
  | peLine (q : ℚ) (valuation : String) : Line
  | roe (q : ℚ) : Line
  | bookValue (q : ℚ) : Line
  | risk (level : String) : Line
deriving DecidableEq

/-- The `valuation` computed in `generateSummary` for a P/E number that
passed the truthy-number guard: starts at `Fair` and is overwritten by the
threshold chain of the source. -/
def valuationOf (q : ℚ) : String :=
  if q < 15 then "Cheap"
  else if 30 < q ∧ q ≤ 50 then "Expensive"
  else if 50 < q then "Very Expensive"
  else "Fair"

/-- The final value of the `valuation` variable of `generateSummary` as a
function of the merged P/E value: `Fair` unless the guard
`data.pe_ratio && typeof data.pe_ratio === 'number'` passes. -/
def valuationTier (v : JsVal) : String :=
  match truthyNum v with
  | some q => valuationOf q
  | none => "Fair"

/-- The final value of the `risk` variable of `generateSummary`: default
`Medium Risk`; when both the P/E and the ROE pass the truthy-number guard,
`Low Risk` when `pe < 20 && roe > 15`, else `High Risk` when `pe > 50`. -/
def riskTier (pe roe : JsVal) : String :=
  match truthyNum pe, truthyNum roe with
  | some p, some r =>
      if p < 20 ∧ 15 < r then "Low Risk"
      else if 50 < p then "High Risk"
      else "Medium Risk"
  | _, _ => "Medium Risk"

/-- The price line of `generateSummary` (exactly one line is always
pushed): the formatted price when the guard passes, the explicit `N/A`
marker otherwise. -/
def priceLines (v : JsVal) : List Line :=
  match truthyNum v with
  | some q => [.price q]
  | none => [.priceNA]

/-- The change line of `generateSummary`: pushed only when
`data.change_percent` is truthy; direction is
`parseFloat(...) >= 0 ? UP : DOWN`. -/
def changeLines (v : JsVal) : List Line :=
  if v.truthy then [.change v (if jsNonNeg v then "UP" else "DOWN")] else []

/-- The market cap line of `generateSummary` (pushed only when the
truthy-number guard passes). -/
def marketCapLines (v : JsVal) : List Line :=
  match truthyNum v with
  | some q => [.marketCap q]
  | none => []

/-- The P/E line of `generateSummary`, annotated with the valuation tier
(pushed only when the truthy-number guard passes). -/
def peLines (v : JsVal) : List Line :=
  match truthyNum v with
  | some q => [.peLine q (valuationOf q)]
  | none => []

/-- The ROE line of `generateSummary`. -/
def roeLines (v : JsVal) : List Line :=
  match truthyNum v with
  | some q => [.roe q]
  | none => []

/-- The book value line of `generateSummary`. -/
def bookValueLines (v : JsVal) : List Line :=
  match truthyNum v with
  | some q => [.bookValue q]
  | none => []

/-- `generateSummary`: the deterministic summary of the merged record, as
the sequence of pushed lines.  `stockSymbol` is `this.stockSymbol`. -/
def generateSummary (stockSymbol : String) (data : Combined) : List Line :=
  [Line.company (jsOr data.company_name (.str stockSymbol))]
    ++ priceLines data.current_price
    ++ changeLines data.change_percent
    ++ marketCapLines data.market_cap
    ++ peLines data.pe
    ++ roeLines data.roe
    ++ bookValueLines data.book_value
    ++ [Line.risk (riskTier data.pe data.roe)]

/-- The structured content of the fixed template returned by
`generateBasicSummary`: each field carries the data interpolated into the
template (`priceStr` is `some q` when the price guard passes, rendered
`N/A` otherwise; `changeStr` is `data.change_percent || 'N/A'`). -/
structure BasicSummary where
  company_name : JsVal
  symbol : String
  priceStr : Option ℚ
  changeStr : JsVal
  valuation : String
  riskLevel : String
  strengths : List String
  concerns : List String
  reliability : String
  sourcesCount : Nat
deriving DecidableEq

/-- `generateBasicSummary`: the deterministic fallback summary.
`sourcesCount` is `Object.keys(this.data.sources).length`, the number of
successful extractors. -/
def generateBasicSummary (data : Combined) (sourcesCount : Nat)
    (stockSymbol : String) : BasicSummary :=
  let valuation :=
    match truthyNum data.pe with
    | some q =>
        if q < 15 then "Cheap (Low P/E)"
        else if 30 < q then "Expensive (High P/E)"
        else "Fair"
    | none => "Fair"
  let riskLevel :=
    match truthyNum data.pe with
    | some q =>
        if 50 < q then "High"
        else if q < 20 then "Low-Moderate"
        else "Moderate"
    | none => "Moderate"
  let roeStrengths :=
    match truthyNum data.roe with
    | some q => if 15 < q then ["Good ROE indicating profitability"] else []
    | none => []
  let roeConcerns :=
    match truthyNum data.roe with
    | some q => if 15 < q then [] else ["Low ROE, profitability concerns"]
    | none => []
  let capStrengths :=
    match truthyNum data.market_cap with
    | some q => if 100000 < q then ["Large-cap stock, stable"] else []
    | none => []
  let changeStrengths :=
    if data.change_percent.truthy then
      if jsPos data.change_percent then ["Positive price momentum"] else []
    else []
  let changeConcerns :=
    if data.change_percent.truthy then
      if jsPos data.change_percent then [] else ["Recent price decline"]
    else []
  let strengths0 := roeStrengths ++ capStrengths ++ changeStrengths
  let concerns0 := roeConcerns ++ changeConcerns
  let strengths :=
    if strengths0 = [] then ["Data limited for full analysis"] else strengths0
  let concerns :=
    if concerns0 = [] then ["Limited historical data available"] else concerns0
  { company_name := data.company_name
    symbol := stockSymbol
    priceStr := truthyNum data.current_price
    changeStr := jsOr data.change_percent (.str "N/A")
    valuation := valuation
    riskLevel := riskLevel
    strengths := strengths
    concerns := concerns
    reliability := if 2 ≤ sourcesCount then "Good" else "Fair"
    sourcesCount := sourcesCount }

/-- The summary slot of the object returned by `generateFinalSummary`:
either the text produced by the enrichment call, or the deterministic
fallback summary. -/
inductive SummaryText where
  | ai (t : String) : SummaryText
  | basic (b : BasicSummary) : SummaryText
deriving DecidableEq

/-- The object returned by `generateFinalSummary` (the `prompt` slot, a
fixed interpolation of the merged data, is not modelled; no claim reads
it). -/
structure FinalSummaryR where
  summary : SummaryText
  error : Option String
  model : Option String
deriving DecidableEq

/-- `generateFinalSummary`: with no configured credential the fallback
summary is returned with the fixed configuration error; with a credential,
the enrichment outcome decides between the enriched text and the fallback
summary carrying the failure message. -/
def generateFinalSummary (cred : Option String)
    (aiOutcome : Except String String) (data : Combined)
    (sourcesCount : Nat) (stockSymbol : String) : FinalSummaryR :=
  match cred with
  | none =>
      { summary := .basic (generateBasicSummary data sourcesCount stockSymbol)
        error := some "OpenAI API key not configured"
        model := none }
  | some _ =>
      match aiOutcome with
      | .ok t => { summary := .ai t, error := none, model := some "gpt-3.5-turbo" }
      | .error e =>
          { summary := .basic (generateBasicSummary data sourcesCount stockSymbol)
            error := some e
            model := none }

/-- The count of successful extractors: in `scrapeAllSources` this is the
number of settled promises whose value is non-null, which coincides with
the number of keys of `this.data.sources`. -/
def numSuccesses (s : Sources) : Nat :=
  (if s.yahoo_finance.isSome then 1 else 0)
    + (if s.nse.isSome then 1 else 0)
    + (if s.screener.isSome then 1 else 0)

/-- `getSourcesList`: the keys of `this.data.sources` mapped to display
names (a key is present exactly when its extractor succeeded; the
`moneycontrol` entry of the name map is dead, as `scrapeAllSources` never
runs that scraper). -/
def getSourcesList (s : Sources) : List String :=
  (match s.yahoo_finance with
    | some _ => ["Yahoo Finance"]
    | none => [])
  ++ (match s.nse with
    | some _ => ["NSE India"]
    | none => [])
  ++ (match s.screener with
    | some _ => ["Screener.in"]
    | none => [])

/-- The two failure modes of the `/api/analyze` handler: the 400 response
for a missing or empty symbol, and the 500 response produced when
`scrapeAllSources` throws because every extractor failed. -/
inductive AnalyzeErr where
  | invalidSymbol : AnalyzeErr
  | allSourcesFailed : AnalyzeErr
deriving DecidableEq

/-- The successful JSON response of `/api/analyze` (the fields read by the
claims). -/
structure AnalyzeResponse where
  symbol : String
  summary : List Line
  final_summary : SummaryText
  ai_model : String
  ai_error : Option String
  sources : List String
  combined_data : Combined
deriving DecidableEq

/-- `x || null` on the optional error string of the response
(`ai_error: finalSummary.error || null`): an empty-string error is
replaced by `null`. -/
def jsOrNull (e : Option String) : Option String :=
  match e with
  | some t => if t = "" then none else some t
  | none => none

/-- The `/api/analyze` handler: rejects a missing or empty symbol before
any fetch; fails with `allSourcesFailed` when no extractor succeeded;
otherwise merges, renders and answers with the success payload.
`s` is the settled outcome of the three extractors, `cred` the optional
OpenAI credential, `aiOutcome` the outcome of the enrichment call. -/
def analyze (symbol : Option String) (s : Sources) (cred : Option String)
    (aiOutcome : Except String String) : Except AnalyzeErr AnalyzeResponse :=
  match symbol with
  | none => .error .invalidSymbol
  | some sym =>
      if sym = "" then .error .invalidSymbol
      else if numSuccesses s = 0 then .error .allSourcesFailed
      else
        let stockSymbol := sym.toUpper
        let combined := getCombinedData stockSymbol s
        let fs := generateFinalSummary cred aiOutcome combined
          (numSuccesses s) stockSymbol
        .ok
          { symbol := stockSymbol
            summary := generateSummary stockSymbol combined
            final_summary := fs.summary
            ai_model := match fs.model with | some m => m | none => "basic"
            ai_error := jsOrNull fs.error
            sources := getSourcesList s
            combined_data := combined }

/-- Observer: the `final_summary` slot of a successful response. -/
def finalSummaryOf :
    Except AnalyzeErr AnalyzeResponse → Option SummaryText
  | .ok r => some r.final_summary
  | .error _ => none

/-- Observer: the `ai_error` slot of a successful response. -/
def aiErrorOf :
    Except AnalyzeErr AnalyzeResponse → Option (Option String)
  | .ok r => some r.ai_error
  | .error _ => none

/-- Observer: the `sources` slot of a successful response. -/
def sourcesOf : Except AnalyzeErr AnalyzeResponse → Option (List String)
  | .ok r => some r.sources
  | .error _ => none

/-! Characterizations of the lines each renderer component can push. -/

theorem mem_priceLines (l : Line) (v : JsVal) :
    l ∈ priceLines v ↔
      ((∃ q, truthyNum v = some q ∧ l = .price q) ∨
        (truthyNum v = none ∧ l = .priceNA)) := by
  cases h : truthyNum v <;> simp [priceLines, h]

theorem mem_changeLines (l : Line) (v : JsVal) :
    l ∈ changeLines v ↔
      (v.truthy = true ∧
        l = .change v (if jsNonNeg v then "UP" else "DOWN")) := by
  cases h : v.truthy <;> simp [changeLines, h]

theorem mem_marketCapLines (l : Line) (v : JsVal) :
    l ∈ marketCapLines v ↔ ∃ q, truthyNum v = some q ∧ l = .marketCap q := by
  cases h : truthyNum v <;> simp [marketCapLines, h]

theorem mem_peLines (l : Line) (v : JsVal) :
    l ∈ peLines v ↔
      ∃ q, truthyNum v = some q ∧ l = .peLine q (valuationOf q) := by
  cases h : truthyNum v <;> simp [peLines, h]

theorem mem_roeLines (l : Line) (v : JsVal) :
    l ∈ roeLines v ↔ ∃ q, truthyNum v = some q ∧ l = .roe q := by
  cases h : truthyNum v <;> simp [roeLines, h]

theorem mem_bookValueLines (l : Line) (v : JsVal) :
    l ∈ bookValueLines v ↔ ∃ q, truthyNum v = some q ∧ l = .bookValue q := by
  cases h : truthyNum v <;> simp [bookValueLines, h]

/-- C3: valuation tier thresholds.  A P/E value is resolved at the
classifier when it passes the guard `pe && typeof pe === 'number'`, i.e. is
a non-zero number; the tier is then Cheap below 15, Fair on [15, 30],
Expensive on (30, 50], Very Expensive above 50, and Fair when the ratio is
unresolved; the stated boundary inputs classify accordingly. -/
theorem valuation_tier_thresholds :
    (∀ r : ℚ, r ≠ 0 →
      ((r < 15 → valuationTier (.num r) = "Cheap") ∧
        (15 ≤ r → r ≤ 30 → valuationTier (.num r) = "Fair") ∧
        (30 < r → r ≤ 50 → valuationTier (.num r) = "Expensive") ∧
        (50 < r → valuationTier (.num r) = "Very Expensive"))) ∧
    valuationTier .undefined = "Fair" ∧
    valuationTier (.num 14.99) = "Cheap" ∧
    valuationTier (.num 15) = "Fair" ∧
    valuationTier (.num 30) = "Fair" ∧
    valuationTier (.num 30.01) = "Expensive" ∧
    valuationTier (.num 50) = "Expensive" ∧
    valuationTier (.num 50.01) = "Very Expensive" := by
  have heval : ∀ r : ℚ, r ≠ 0 → valuationTier (.num r) = valuationOf r := by
    intro r hr
    simp [valuationTier, truthyNum, hr]
  refine ⟨?_, by decide,
    by rw [heval 14.99 (by norm_num)]; norm_num [valuationOf],
    by rw [heval 15 (by norm_num)]; norm_num [valuationOf],
    by rw [heval 30 (by norm_num)]; norm_num [valuationOf],
    by rw [heval 30.01 (by norm_num)]; norm_num [valuationOf],
    by rw [heval 50 (by norm_num)]; norm_num [valuationOf],
    by rw [heval 50.01 (by norm_num)]; norm_num [valuationOf]⟩
  intro r hr
  rw [heval r hr]
  refine ⟨?_, ?_, ?_, ?_⟩
  · intro h
    simp [valuationOf, h]
  · intro h1 h2
    have n1 : ¬ r < 15 := not_lt.mpr h1
    have n2 : ¬ (30 < r ∧ r ≤ 50) := fun hc => absurd hc.1 (not_lt.mpr h2)
    have n3 : ¬ 50 < r := not_lt.mpr (h2.trans (by norm_num))
    simp [valuationOf, n1, n2, n3]
  · intro h1 h2
    have n1 : ¬ r < 15 := not_lt.mpr (by linarith)
    simp [valuationOf, n1, h1, h2]
  · intro h
    have n1 : ¬ r < 15 := not_lt.mpr (by linarith)
    have n2 : ¬ (30 < r ∧ r ≤ 50) := fun hc => absurd h (not_lt.mpr hc.2)
    simp [valuationOf, n1, n2, h]

/-- Witness for `valuation_tier_thresholds` at the concrete ratio 10. -/
theorem valuation_tier_thresholds_witness :
    valuationTier (.num 10) = "Cheap" :=
  (valuation_tier_thresholds.1 10 (by norm_num)).1 (by norm_num)

/-- C4: risk tier rules.  With both P/E and ROE resolved (truthy numbers),
the tier is Low exactly under `pe < 20 && roe > 15`, High under `pe > 50`,
Medium otherwise; the simultaneous qualification of Low and High is
numerically impossible, so High wins vacuously; any absent (or zero) input
leaves the default Medium; the two stated tie-break inputs classify
accordingly. -/
theorem risk_tier_rules :
    (∀ p r : ℚ, p ≠ 0 → r ≠ 0 →
      ((p < 20 ∧ 15 < r → riskTier (.num p) (.num r) = "Low Risk") ∧
        (50 < p → riskTier (.num p) (.num r) = "High Risk") ∧
        (¬(p < 20 ∧ 15 < r) → ¬ 50 < p →
          riskTier (.num p) (.num r) = "Medium Risk") ∧
        ((p < 20 ∧ 15 < r) ∧ 50 < p →
          riskTier (.num p) (.num r) = "High Risk"))) ∧
    (∀ v : JsVal,
      riskTier .undefined v = "Medium Risk" ∧
        riskTier v .undefined = "Medium Risk" ∧
        riskTier (.num 0) v = "Medium Risk" ∧
        riskTier v (.num 0) = "Medium Risk") ∧
    riskTier (.num 10) (.num 20) = "Low Risk" ∧
    riskTier (.num 60) (.num 20) = "High Risk" := by
  refine ⟨?_, ?_, by decide, by decide⟩
  · intro p r hp hr
    refine ⟨?_, ?_, ?_, ?_⟩
    · intro h
      simp [riskTier, truthyNum, hp, hr, h]
    · intro h
      have n1 : ¬ (p < 20 ∧ 15 < r) :=
        fun hc => absurd hc.1 (not_lt.mpr (by linarith))
      simp [riskTier, truthyNum, hp, hr, n1, h]
    · intro h1 h2
      simp [riskTier, truthyNum, hp, hr, h1, h2]
    · intro hc
      exact absurd hc.1.1 (not_lt.mpr (by linarith [hc.2]))
  · intro v
    refine ⟨?_, ?_, ?_, ?_⟩ <;>
      cases hv : truthyNum v <;>
        simp [riskTier, truthyNum, hv]

/-- Witness for `risk_tier_rules` at the tie-break input (60, 20). -/
theorem risk_tier_rules_witness :
    riskTier (.num 60) (.num 20) = "High Risk" :=
  ((risk_tier_rules.1 60 20 (by norm_num) (by norm_num)).2.1 (by norm_num))

/-- C1 (amended): for every multi-source field chain of `getCombinedData`
(price: yahoo > nse > screener; pe_ratio: screener > nse; change_percent:
yahoo > nse; company_name: nse > screener), when a source's value is truthy
(non-zero number or non-empty string) and every higher-priority source's
value is falsy, the merged field equals that source's value and that source
is the winning disjunct of the chain (the provenance). -/
theorem merge_first_truthy_wins (sym : String) (s : Sources) :
    ((yahooPrice s).truthy = true →
      (getCombinedData sym s).current_price = yahooPrice s ∧
        priceWinner s = some .yahoo) ∧
    ((yahooPrice s).truthy = false → (nsePrice s).truthy = true →
      (getCombinedData sym s).current_price = nsePrice s ∧
        priceWinner s = some .nse) ∧
    ((yahooPrice s).truthy = false → (nsePrice s).truthy = false →
      (screenerPrice s).truthy = true →
      (getCombinedData sym s).current_price = screenerPrice s ∧
        priceWinner s = some .screener) ∧
    ((screenerPe s).truthy = true →
      (getCombinedData sym s).pe = screenerPe s ∧
        peWinner s = some .screener) ∧
    ((screenerPe s).truthy = false → (nsePe s).truthy = true →
      (getCombinedData sym s).pe = nsePe s ∧ peWinner s = some .nse) ∧
    ((yahooChangePercent s).truthy = true →
      (getCombinedData sym s).change_percent = yahooChangePercent s ∧
        changeWinner s = some .yahoo) ∧
    ((yahooChangePercent s).truthy = false →
      (nseChangePercent s).truthy = true →
      (getCombinedData sym s).change_percent = nseChangePercent s ∧
        changeWinner s = some .nse) ∧
    ((nseCompanyName s).truthy = true →
      (getCombinedData sym s).company_name = nseCompanyName s ∧
        nameWinner s = some .nse) ∧
    ((nseCompanyName s).truthy = false → (screenerName s).truthy = true →
      (getCombinedData sym s).company_name = screenerName s ∧
        nameWinner s = some .screener) := by
  refine ⟨?_, ?_, ?_, ?_, ?_, ?_, ?_, ?_, ?_⟩
  · intro h
    simp [getCombinedData, jsOr, priceWinner, h]
  · intro h1 h2
    simp [getCombinedData, jsOr, priceWinner, h1, h2]
  · intro h1 h2 h3
    simp [getCombinedData, jsOr, priceWinner, h1, h2, h3]
  · intro h
    simp [getCombinedData, jsOr, peWinner, h]
  · intro h1 h2
    simp [getCombinedData, jsOr, peWinner, h1, h2]
  · intro h
    simp [getCombinedData, jsOr, changeWinner, h]
  · intro h1 h2
    simp [getCombinedData, jsOr, changeWinner, h1, h2]
  · intro h
    simp [getCombinedData, jsOr, nameWinner, h]
  · intro h1 h2
    simp [getCombinedData, jsOr, nameWinner, h1, h2]

/-- Sources refuting C1 as literally stated: Yahoo (ranked above NSE for
the price) provides the non-absent price 0, NSE provides 100. -/
def cexC1Sources : Sources where
  yahoo_finance := some
    { current_price := .num 0, previous_close := .undefined, change := .undefined,
      change_percent := .undefined, volume := .undefined, currency := .undefined,
      exchange := .undefined }
  nse := some
    { current_price := .num 100, change := .undefined, change_percent := .undefined,
      open_ := .undefined, high := .undefined, low := .undefined, volume := .undefined,
      market_cap := .undefined, pe := .undefined, company_name := .undefined }
  screener := none

/-- Counterexample to C1 as stated: both Yahoo and NSE provide non-absent
prices, Yahoo ranks above NSE, yet the merged price is the NSE value, not
the Yahoo value, because Yahoo's 0 is falsy and the `||` chain skips it. -/
theorem merge_first_truthy_wins_cex :
    yahooPrice cexC1Sources ≠ JsVal.undefined ∧
    nsePrice cexC1Sources ≠ JsVal.undefined ∧
    (getCombinedData "TCS" cexC1Sources).current_price =
      nsePrice cexC1Sources ∧
    (getCombinedData "TCS" cexC1Sources).current_price ≠
      yahooPrice cexC1Sources := by
  decide

/-- Sources for the `merge_first_truthy_wins` witness: Yahoo and NSE both
provide truthy prices. -/
def wC1Sources : Sources where
  yahoo_finance := some
    { current_price := .num 500, previous_close := .undefined, change := .undefined,
      change_percent := .undefined, volume := .undefined, currency := .undefined,
      exchange := .undefined }
  nse := some
    { current_price := .num 100, change := .undefined, change_percent := .undefined,
      open_ := .undefined, high := .undefined, low := .undefined, volume := .undefined,
      market_cap := .undefined, pe := .undefined, company_name := .undefined }
  screener := none

/-- Witness for `merge_first_truthy_wins`: with both Yahoo and NSE truthy,
the merged price is Yahoo's and Yahoo is the winner. -/
theorem merge_first_truthy_wins_witness :
    (getCombinedData "TCS" wC1Sources).current_price =
      yahooPrice wC1Sources ∧ priceWinner wC1Sources = some .yahoo :=
  (merge_first_truthy_wins "TCS" wC1Sources).1 (by decide)

/-- The settled state in which every extractor failed: no source key set. -/
def emptySources : Sources where
  yahoo_finance := none
  nse := none
  screener := none

/-- C8 (amended), field by field: whenever every source of one field's
chain is absent for that field — whatever the other fields and sources
hold — the merged record leaves that field `undefined` (unresolved), for
every field except `company_name`, which `getCombinedData` defaults to
the uppercased request symbol at the merge stage. -/
theorem unresolved_never_defaulted (sym : String) (s : Sources) :
    (yahooPrice s = .undefined → nsePrice s = .undefined →
      screenerPrice s = .undefined →
      (getCombinedData sym s).current_price = .undefined) ∧
    (yahooChangePercent s = .undefined → nseChangePercent s = .undefined →
      (getCombinedData sym s).change_percent = .undefined) ∧
    (screenerMarketCap s = .undefined →
      (getCombinedData sym s).market_cap = .undefined) ∧
    (screenerPe s = .undefined → nsePe s = .undefined →
      (getCombinedData sym s).pe = .undefined) ∧
    (screenerRoe s = .undefined →
      (getCombinedData sym s).roe = .undefined) ∧
    (screenerBookValue s = .undefined →
      (getCombinedData sym s).book_value = .undefined) ∧
    (nseCompanyName s = .undefined → screenerName s = .undefined →
      (getCombinedData sym s).company_name = .str sym) := by
  refine ⟨?_, ?_, ?_, ?_, ?_, ?_, ?_⟩
  · intro h1 h2 h3
    simp [getCombinedData, jsOr, JsVal.truthy, h1, h2, h3]
  · intro h1 h2
    simp [getCombinedData, jsOr, JsVal.truthy, h1, h2]
  · intro h1
    simp [getCombinedData, jsOr, JsVal.truthy, h1]
  · intro h1 h2
    simp [getCombinedData, jsOr, JsVal.truthy, h1, h2]
  · intro h1
    simp [getCombinedData, jsOr, JsVal.truthy, h1]
  · intro h1
    simp [getCombinedData, jsOr, JsVal.truthy, h1]
  · intro h1 h2
    simp [getCombinedData, jsOr, JsVal.truthy, h1, h2]

/-- Counterexample to C8 as stated: with every extractor failed (no source
provides any value), the merged `company_name` is the placeholder symbol
string rather than unresolved. -/
theorem unresolved_never_defaulted_cex :
    emptySources.yahoo_finance = none ∧ emptySources.nse = none ∧
    emptySources.screener = none ∧
    (getCombinedData "TCS" emptySources).company_name = .str "TCS" ∧
    (getCombinedData "TCS" emptySources).company_name ≠ .undefined := by
  decide

/-- Mixed settled state for the `unresolved_never_defaulted` witness: only
Screener succeeded, and it extracted a market cap but neither an ROE nor a
name. -/
def wC8Sources : Sources where
  yahoo_finance := none
  nse := none
  screener := some
    { company_info := { name := .undefined, price := .undefined }
      ratios :=
        { market_cap := .num 5000, pe := .undefined, book_value := .undefined,
          roe := .undefined, roce := .undefined } }

/-- Witness for `unresolved_never_defaulted` at a mixed record: the ROE
stays unresolved even though the market cap of the same record resolves,
and the name falls back to the symbol. -/
theorem unresolved_never_defaulted_witness :
    (getCombinedData "TCS" wC8Sources).roe = .undefined ∧
      (getCombinedData "TCS" wC8Sources).market_cap = .num 5000 ∧
      (getCombinedData "TCS" wC8Sources).company_name = .str "TCS" :=
  ⟨(unresolved_never_defaulted "TCS" wC8Sources).2.2.2.2.1 rfl,
    by decide,
    (unresolved_never_defaulted "TCS" wC8Sources).2.2.2.2.2.2 rfl rfl⟩

/-- Observer: whether the pipeline answered with the success payload. -/
def isOk : Except AnalyzeErr AnalyzeResponse → Bool
  | .ok _ => true
  | .error _ => false

/-- C2: with a valid symbol, the pipeline fails with `allSourcesFailed`
(and produces no report) exactly when zero extractors succeeded, and
returns a successful report whenever at least one succeeded. -/
theorem orchestrator_total_vs_subset (sym : String) (s : Sources)
    (cred : Option String) (ai : Except String String) (hsym : sym ≠ "") :
    (numSuccesses s = 0 →
      analyze (some sym) s cred ai = .error .allSourcesFailed) ∧
    (numSuccesses s ≠ 0 → isOk (analyze (some sym) s cred ai) = true) := by
  constructor
  · intro h
    simp [analyze, hsym, h]
  · intro h
    simp [analyze, isOk, hsym, h]

/-- Witness for `orchestrator_total_vs_subset`: all three extractors
failed, the pipeline fails with `allSourcesFailed`. -/
theorem orchestrator_total_vs_subset_witness :
    analyze (some "TCS") emptySources none (.error "down") =
      .error .allSourcesFailed :=
  (orchestrator_total_vs_subset "TCS" emptySources none (.error "down")
    (by decide)).1 (by decide)

/-- C7: a missing or empty symbol is rejected with `invalidSymbol`
(independently of any fetch outcome); for a non-empty symbol the pipeline
either returns a report or fails with `allSourcesFailed`, and never with
`invalidSymbol` — the two errors are its only failure modes. -/
theorem analyze_failure_modes (sym : String) (s : Sources)
    (cred : Option String) (ai : Except String String) (hsym : sym ≠ "") :
    analyze none s cred ai = .error .invalidSymbol ∧
    analyze (some "") s cred ai = .error .invalidSymbol ∧
    (isOk (analyze (some sym) s cred ai) = true ∨
      analyze (some sym) s cred ai = .error .allSourcesFailed) ∧
    analyze (some sym) s cred ai ≠ .error .invalidSymbol := by
  refine ⟨rfl, by simp [analyze], ?_, ?_⟩
  · by_cases h : numSuccesses s = 0
    · right
      simp [analyze, hsym, h]
    · left
      simp [analyze, isOk, hsym, h]
  · by_cases h : numSuccesses s = 0 <;> simp [analyze, hsym, h]

/-- Witness for `analyze_failure_modes` at a concrete non-empty symbol. -/
theorem analyze_failure_modes_witness :
    isOk (analyze (some "TCS") emptySources none (.error "down")) = true ∨
      analyze (some "TCS") emptySources none (.error "down") =
        .error .allSourcesFailed :=
  (analyze_failure_modes "TCS" emptySources none (.error "down")
    (by decide)).2.2.1

/-- C9: with at least one but not all extractors succeeding, the pipeline
returns a report whose source list names exactly the succeeding
extractors: each display name is cited precisely when its extractor
succeeded, and the list's length is the success count. -/
theorem sources_list_exact (sym : String) (s : Sources)
    (cred : Option String) (ai : Except String String) (hsym : sym ≠ "")
    (h1 : 0 < numSuccesses s) (h2 : numSuccesses s < 3) :
    sourcesOf (analyze (some sym) s cred ai) = some (getSourcesList s) ∧
    isOk (analyze (some sym) s cred ai) = true ∧
    ("Yahoo Finance" ∈ getSourcesList s ↔ s.yahoo_finance.isSome = true) ∧
    ("NSE India" ∈ getSourcesList s ↔ s.nse.isSome = true) ∧
    ("Screener.in" ∈ getSourcesList s ↔ s.screener.isSome = true) ∧
    (getSourcesList s).length = numSuccesses s := by
  have h0 : numSuccesses s ≠ 0 := Nat.pos_iff_ne_zero.mp h1
  refine ⟨by simp [analyze, sourcesOf, hsym, h0],
    by simp [analyze, isOk, hsym, h0], ?_, ?_, ?_, ?_⟩ <;>
    · rcases s with ⟨y, n, sc⟩
      cases y <;> cases n <;> cases sc <;>
        simp [getSourcesList, numSuccesses]

/-- Sources for the `sources_list_exact` witness: Yahoo and NSE succeeded,
Screener failed (2 of 3). -/
def wC9Sources : Sources where
  yahoo_finance := some
    { current_price := .num 500, previous_close := .undefined, change := .undefined,
      change_percent := .undefined, volume := .undefined, currency := .undefined,
      exchange := .undefined }
  nse := some
    { current_price := .num 100, change := .undefined, change_percent := .undefined,
      open_ := .undefined, high := .undefined, low := .undefined, volume := .undefined,
      market_cap := .undefined, pe := .undefined, company_name := .undefined }
  screener := none

/-- Witness for `sources_list_exact` with exactly 2 of 3 successes. -/
theorem sources_list_exact_witness :
    sourcesOf (analyze (some "TCS") wC9Sources none (.ok "text")) =
      some (getSourcesList wC9Sources) :=
  (sources_list_exact "TCS" wC9Sources none (.ok "text") (by decide)
    (by decide) (by decide)).1

/-- C5: when the credential is missing or the enrichment call fails, the
pipeline still returns a successful report, its enriched-summary slot is
the deterministic fallback summary, and the enrichment-error field carries
the failure reason (the fixed configuration message when the credential is
missing, the call's error message otherwise). -/
theorem enrichment_fallback (sym : String) (s : Sources)
    (cred : Option String) (ai : Except String String) (hsym : sym ≠ "")
    (hs : numSuccesses s ≠ 0)
    (hfail : cred = none ∨ ∃ e, ai = .error e) :
    isOk (analyze (some sym) s cred ai) = true ∧
    finalSummaryOf (analyze (some sym) s cred ai) =
      some (.basic (generateBasicSummary (getCombinedData sym.toUpper s)
        (numSuccesses s) sym.toUpper)) ∧
    (cred = none →
      aiErrorOf (analyze (some sym) s cred ai) =
        some (some "OpenAI API key not configured")) ∧
    (∀ c e, cred = some c → ai = .error e → e ≠ "" →
      aiErrorOf (analyze (some sym) s cred ai) = some (some e)) := by
  rcases hfail with hc | ⟨e, he⟩
  · subst hc
    refine ⟨by simp [analyze, isOk, hsym, hs], ?_, ?_, ?_⟩
    · simp [analyze, finalSummaryOf, generateFinalSummary, hsym, hs]
    · intro _
      simp [analyze, aiErrorOf, generateFinalSummary, jsOrNull, hsym, hs]
    · intro c e hcred
      exact absurd hcred (by simp)
  · subst he
    cases cred with
    | none =>
        refine ⟨by simp [analyze, isOk, hsym, hs], ?_, ?_, ?_⟩
        · simp [analyze, finalSummaryOf, generateFinalSummary, hsym, hs]
        · intro _
          simp [analyze, aiErrorOf, generateFinalSummary, jsOrNull, hsym, hs]
        · intro c e0 hcred
          exact absurd hcred (by simp)
    | some c =>
        refine ⟨by simp [analyze, isOk, hsym, hs], ?_, ?_, ?_⟩
        · simp [analyze, finalSummaryOf, generateFinalSummary, hsym, hs]
        · intro h
          exact absurd h (by simp)
        · intro c0 e0 _ herr hne
          have he0 : e0 = e := by
            injection herr.symm
          subst he0
          simp [analyze, aiErrorOf, generateFinalSummary, jsOrNull, hsym,
            hs, hne]

/-- Witness for `enrichment_fallback`: no credential configured, Yahoo and
NSE succeeded; the report is successful, carries the fallback summary and
the configuration error. -/
theorem enrichment_fallback_witness :
    isOk (analyze (some "TCS") wC9Sources none (.error "boom")) = true ∧
      aiErrorOf (analyze (some "TCS") wC9Sources none (.error "boom")) =
        some (some "OpenAI API key not configured") := by
  have h := enrichment_fallback "TCS" wC9Sources none (.error "boom")
    (by decide) (by decide) (Or.inl rfl)
  exact ⟨h.1, h.2.2.1 rfl⟩

/-- C6: shape of the deterministic summary.  It always starts with the
company line and always ends with the risk line (computed with the
classifier's default when inputs are absent); the price line is always
present, as a value exactly when the price guard passes and as the
explicit `N/A` marker otherwise; the change line appears exactly when the
change percent is truthy, with direction UP precisely when
`parseFloat(change) >= 0`; the market-cap, P/E (with its valuation
annotation), ROE and book-value lines each appear exactly when the
corresponding guard passes. -/
theorem summary_lines_shape (sym : String) (data : Combined) :
    ((generateSummary sym data).head? =
      some (.company (jsOr data.company_name (.str sym)))) ∧
    (∀ q : ℚ, Line.price q ∈ generateSummary sym data ↔
      truthyNum data.current_price = some q) ∧
    (Line.priceNA ∈ generateSummary sym data ↔
      truthyNum data.current_price = none) ∧
    ((generateSummary sym data).getLast? =
      some (.risk (riskTier data.pe data.roe))) ∧
    (∀ lvl, Line.risk lvl ∈ generateSummary sym data ↔
      lvl = riskTier data.pe data.roe) ∧
    (∀ v d, Line.change v d ∈ generateSummary sym data ↔
      (data.change_percent.truthy = true ∧ v = data.change_percent ∧
        d = (if jsNonNeg data.change_percent then "UP" else "DOWN"))) ∧
    (∀ q, Line.marketCap q ∈ generateSummary sym data ↔
      truthyNum data.market_cap = some q) ∧
    (∀ q val, Line.peLine q val ∈ generateSummary sym data ↔
      (truthyNum data.pe = some q ∧ val = valuationOf q)) ∧
    (∀ q, Line.roe q ∈ generateSummary sym data ↔
      truthyNum data.roe = some q) ∧
    (∀ q, Line.bookValue q ∈ generateSummary sym data ↔
      truthyNum data.book_value = some q) := by
  refine ⟨?_, ?_, ?_, ?_, ?_, ?_, ?_, ?_, ?_, ?_⟩
  · simp [generateSummary]
  · intro q
    simp [generateSummary, mem_priceLines, mem_changeLines,
      mem_marketCapLines, mem_peLines, mem_roeLines, mem_bookValueLines]
  · simp [generateSummary, mem_priceLines, mem_changeLines,
      mem_marketCapLines, mem_peLines, mem_roeLines, mem_bookValueLines]
  · simp only [generateSummary]
    rw [List.getLast?_append_cons]
    rfl
  · intro lvl
    simp [generateSummary, mem_priceLines, mem_changeLines,
      mem_marketCapLines, mem_peLines, mem_roeLines, mem_bookValueLines]
  · intro v d
    simp [generateSummary, mem_priceLines, mem_changeLines,
      mem_marketCapLines, mem_peLines, mem_roeLines, mem_bookValueLines]
  · intro q
    simp [generateSummary, mem_priceLines, mem_changeLines,
      mem_marketCapLines, mem_peLines, mem_roeLines, mem_bookValueLines]
  · intro q val
    simp only [generateSummary, List.mem_append, List.mem_singleton,
      mem_priceLines, mem_changeLines, mem_marketCapLines, mem_peLines,
      mem_roeLines, mem_bookValueLines, or_assoc]
    constructor
    · rintro (h | h | h | h | h | h | h | h | h)
      · cases h
      · rcases h with ⟨q1, _, h⟩
        cases h
      · cases h.2
      · cases h.2
      · rcases h with ⟨q1, _, h⟩
        cases h
      · rcases h with ⟨q1, h1, h⟩
        cases h
        exact ⟨h1, rfl⟩
      · rcases h with ⟨q1, _, h⟩
        cases h
      · rcases h with ⟨q1, _, h⟩
        cases h
      · cases h
    · rintro ⟨h1, rfl⟩
      exact Or.inr (Or.inr (Or.inr (Or.inr (Or.inr
        (Or.inl ⟨q, h1, rfl⟩)))))
  · intro q
    simp [generateSummary, mem_priceLines, mem_changeLines,
      mem_marketCapLines, mem_peLines, mem_roeLines, mem_bookValueLines]
  · intro q
    simp [generateSummary, mem_priceLines, mem_changeLines,
      mem_marketCapLines, mem_peLines, mem_roeLines, mem_bookValueLines]

/-- C10: at the merge and render boundary a numeric 0 behaves like an
absent value: the price `||` chain passes over Yahoo's 0 to the rest of
the chain (and the pe_ratio chain over Screener's 0 to NSE); a merged
price of 0 renders as the `N/A` marker and never as a price line; merged
market-cap/P/E/ROE/book-value values of 0 render no line; and a P/E of 0
takes the unresolved classification path (Fair valuation, default Medium
risk). -/
theorem zero_is_absent (sym : String) (s : Sources) (data : Combined) :
    (yahooPrice s = .num 0 →
      (getCombinedData sym s).current_price =
        jsOr (nsePrice s) (screenerPrice s)) ∧
    (screenerPe s = .num 0 → (getCombinedData sym s).pe = nsePe s) ∧
    (data.current_price = .num 0 →
      Line.priceNA ∈ generateSummary sym data ∧
        ∀ q, Line.price q ∉ generateSummary sym data) ∧
    (data.market_cap = .num 0 →
      ∀ q, Line.marketCap q ∉ generateSummary sym data) ∧
    (data.pe = .num 0 →
      (∀ q val, Line.peLine q val ∉ generateSummary sym data) ∧
        valuationTier data.pe = "Fair" ∧
        riskTier data.pe data.roe = "Medium Risk") ∧
    (data.roe = .num 0 →
      ∀ q, Line.roe q ∉ generateSummary sym data) ∧
    (data.book_value = .num 0 →
      ∀ q, Line.bookValue q ∉ generateSummary sym data) := by
  refine ⟨?_, ?_, ?_, ?_, ?_, ?_, ?_⟩
  · intro h
    simp [getCombinedData, jsOr, h, JsVal.truthy]
  · intro h
    simp [getCombinedData, jsOr, h, JsVal.truthy]
  · intro h
    constructor
    · simp [generateSummary, mem_priceLines, truthyNum, h]
    · intro q
      simp [generateSummary, mem_priceLines, mem_changeLines,
        mem_marketCapLines, mem_peLines, mem_roeLines, mem_bookValueLines,
        truthyNum, h]
  · intro h q
    simp [generateSummary, mem_priceLines, mem_changeLines,
      mem_marketCapLines, mem_peLines, mem_roeLines, mem_bookValueLines,
      truthyNum, h]
  · intro h
    refine ⟨?_, ?_, ?_⟩
    · intro q val
      simp [generateSummary, mem_priceLines, mem_changeLines,
        mem_marketCapLines, mem_peLines, mem_roeLines, mem_bookValueLines,
        truthyNum, h]
    · simp [valuationTier, truthyNum, h]
    · cases hr : truthyNum data.roe <;>
        simp [riskTier, truthyNum, h, hr]
  · intro h q
    simp [generateSummary, mem_priceLines, mem_changeLines,
      mem_marketCapLines, mem_peLines, mem_roeLines, mem_bookValueLines,
      truthyNum, h]
  · intro h q
    simp [generateSummary, mem_priceLines, mem_changeLines,
      mem_marketCapLines, mem_peLines, mem_roeLines, mem_bookValueLines,
      truthyNum, h]

/-- Merged record with every numeric field 0 for the `zero_is_absent`
witness. -/
def zeroData : Combined where
  current_price := .num 0
  change_percent := .undefined
  company_name := .str "ZERO"
  market_cap := .num 0
  pe := .num 0
  roe := .num 0
  book_value := .num 0

/-- Witness for `zero_is_absent` at concrete all-zero inputs. -/
theorem zero_is_absent_witness :
    (getCombinedData "TCS" cexC1Sources).current_price =
      jsOr (nsePrice cexC1Sources) (screenerPrice cexC1Sources) ∧
    Line.priceNA ∈ generateSummary "ZERO" zeroData ∧
    valuationTier zeroData.pe = "Fair" ∧
    riskTier zeroData.pe zeroData.roe = "Medium Risk" := by
  refine ⟨(zero_is_absent "TCS" cexC1Sources zeroData).1 rfl,
    ((zero_is_absent "ZERO" emptySources zeroData).2.2.1 rfl).1,
    ((zero_is_absent "ZERO" emptySources zeroData).2.2.2.2.1 rfl).2.1,
    ((zero_is_absent "ZERO" emptySources zeroData).2.2.2.2.1 rfl).2.2⟩

end Scraper
